import Mathlib

/-
Shallow embedding of src/backend/nasa_api/main.py (the klein repository).

The program is a FastAPI service with four handlers:
  heartbeat (HEAD /heartbeat), get_neo (GET /neo), root (GET /),
  say_hello (GET /hello/name), plus a module-level credential
  NASA = codecs.decode("9PNJiWSUGzpFtreNtHWzyT8w0ute06KVcUDRKpt6", "rot13").

get_neo builds a query dict with the calendar-date portions of its two
datetime parameters and the decoded credential, issues one blocking
requests.get to the fixed feed URL, and copies the upstream status code
and raw body onto the outgoing Response object.  The outbound HTTP call
is modelled as an oracle of type OutRequest to Except TransportError
HttpResponse; get_neo returns the list of outbound requests it issued
together with either the transport fault (the uncaught Python exception)
or the mutated Response object.
-/

/-- A calendar date, the result of Python datetime.date(). -/
structure Date where
  year : Int
  month : Nat
  day : Nat
deriving DecidableEq, Repr

/-- A Python datetime.datetime value: calendar fields plus time-of-day fields. -/
structure Datetime where
  year : Int
  month : Nat
  day : Nat
  hour : Nat
  minute : Nat
  second : Nat
  microsecond : Nat
deriving DecidableEq, Repr

/-- Python datetime.date(): project the calendar portion, discarding time of day. -/
def Datetime.date (t : Datetime) : Date :=
  { year := t.year, month := t.month, day := t.day }

/-- The same instant with the time-of-day fields zeroed (midnight), used to
state the truncation property. -/
def Datetime.atMidnight (t : Datetime) : Datetime :=
  { t with hour := 0, minute := 0, second := 0, microsecond := 0 }

/-- rot13 on a single character, as performed by Python codecs rot13:
letters are rotated by 13 within their case, everything else is unchanged. -/
def rot13Char (c : Char) : Char :=
  if Char.ofNat 97 ≤ c ∧ c ≤ Char.ofNat 122 then
    Char.ofNat ((c.toNat - 97 + 13) % 26 + 97)
  else if Char.ofNat 65 ≤ c ∧ c ≤ Char.ofNat 90 then
    Char.ofNat ((c.toNat - 65 + 13) % 26 + 65)
  else c

/-- Python codecs.decode(s, "rot13"): apply the letter substitution to every
character of the string. -/
def rot13 (s : String) : String :=
  String.mk (s.data.map rot13Char)

/-- Module-level constant of main.py: the credential, decoded from the rot13
obfuscated literal embedded in source. -/
def NASA : String :=
  rot13 "9PNJiWSUGzpFtreNtHWzyT8w0ute06KVcUDRKpt6"

/-- The response object returned by requests.get: numeric status code, raw
body bytes, and upstream headers (which the handler does not copy). -/
structure HttpResponse where
  status_code : Nat
  content : List Nat
  headers : List (String × String)
deriving DecidableEq, Repr

/-- The outgoing FastAPI Response object injected into get_neo.  The handler
assigns only status_code and body; headers and media_type model the fields
it leaves alone (the line copying headers is commented out in source). -/
structure Response where
  status_code : Nat
  body : List Nat
  headers : List (String × String)
  media_type : Option String
deriving DecidableEq, Repr

/-- A value in the outbound query dict: either a Python date object (as
produced by datetime.date()) or a string. -/
inductive QueryValue where
  | date : Date → QueryValue
  | str : String → QueryValue
deriving DecidableEq, Repr

/-- An outbound HTTP request as issued by requests.get. -/
structure OutRequest where
  method : String
  url : String
  params : List (String × QueryValue)
deriving DecidableEq, Repr

/-- Transport-level failures that requests.get may raise instead of
returning a response. -/
inductive TransportError where
  | dns
  | connection
  | timeout
deriving DecidableEq, Repr

/-- The params dict built inside get_neo: the calendar-date portions of the
two datetimes plus the decoded credential, in source order. -/
def neoParams (start_date end_date : Datetime) : List (String × QueryValue) :=
  [("start_date", QueryValue.date start_date.date),
   ("end_date", QueryValue.date end_date.date),
   ("api_key", QueryValue.str NASA)]

/-- The single outbound request built by get_neo: a GET to the fixed feed
URL carrying neoParams. -/
def neoRequest (start_date end_date : Datetime) : OutRequest :=
  { method := "GET",
    url := "https://api.nasa.gov/neo/rest/v1/feed",
    params := neoParams start_date end_date }

/-- Handler get_neo of main.py.  It issues one outbound request; if the
transport raises, the exception propagates (Except.error); otherwise the
upstream status code and raw bytes are assigned onto the Response object,
which is returned.  The first component records the outbound requests
issued during the invocation. -/
def get_neo (start_date end_date : Datetime) (response : Response)
    (upstream : OutRequest → Except TransportError HttpResponse) :
    List OutRequest × Except TransportError Response :=
  match upstream (neoRequest start_date end_date) with
  | Except.error e =>
      ([neoRequest start_date end_date], Except.error e)
  | Except.ok web_resp =>
      ([neoRequest start_date end_date],
       Except.ok { response with
                    status_code := web_resp.status_code,
                    body := web_resp.content })

/-- Handler heartbeat of main.py: the fixed alive payload. -/
def heartbeat : List (String × String) :=
  [("status", "alive")]

/-- Handler root of main.py: the fixed greeting payload. -/
def root : List (String × String) :=
  [("message", "Hello World")]

/-- Handler say_hello of main.py: interpolate the path parameter into the
greeting message. -/
def say_hello (name : String) : List (String × String) :=
  [("message", "Hello " ++ name)]

/- Concrete fixtures used by witness and counterexample theorems. -/

/-- A datetime with a nonzero time component. -/
def dA : Datetime :=
  { year := 2015, month := 9, day := 7, hour := 13, minute := 45,
    second := 30, microsecond := 250000 }

/-- A second datetime. -/
def dB : Datetime :=
  { year := 2015, month := 9, day := 8, hour := 6, minute := 0,
    second := 1, microsecond := 0 }

/-- An outgoing Response object in its state before the handler runs. -/
def r0 : Response :=
  { status_code := 200, body := [],
    headers := [("server", "uvicorn")], media_type := some "application/json" }

/-- A non-2xx upstream response with a body and headers. -/
def w404 : HttpResponse :=
  { status_code := 404, content := [110, 111], headers := [("x-upstream", "nasa")] }

/-- An upstream server-error response. -/
def w500 : HttpResponse :=
  { status_code := 500, content := [101, 114, 114], headers := [] }

/-- An upstream response whose headers differ from the outgoing ones. -/
def wHdr : HttpResponse :=
  { status_code := 203, content := [1, 2, 3],
    headers := [("content-type", "text/html"), ("x-up", "1")] }

/-- Claim C1: whenever the outbound call returns a response, get_neo sets the
outgoing status code to the upstream numeric status code and the outgoing
body to the upstream raw bytes, unmodified, with no condition on the
status (non-2xx included). -/
theorem get_neo_forwards_upstream_status_and_body
    (s e : Datetime) (r : Response)
    (u : OutRequest → Except TransportError HttpResponse)
    (w : HttpResponse) (h : u (neoRequest s e) = Except.ok w) :
    (get_neo s e r u).2 =
      Except.ok { r with status_code := w.status_code, body := w.content } := by
  unfold get_neo
  rw [h]

/-- Witness for C1 at a concrete non-2xx upstream response. -/
theorem get_neo_forwards_upstream_status_and_body_witness :
    (get_neo dA dB r0 (fun _ => Except.ok w404)).2 =
      Except.ok { r0 with status_code := w404.status_code, body := w404.content } :=
  get_neo_forwards_upstream_status_and_body dA dB r0 (fun _ => Except.ok w404) w404 rfl

/-- Counterexample for C2: at a concrete invocation in which the outbound
call raises a timeout, the handler yields the propagated fault and produces
no outgoing response at all, so no upstream status code or bytes are
copied, contrary to the claim that copying happens on every invocation
regardless of a timeout. -/
theorem get_neo_timeout_copies_nothing :
    (get_neo dA dB r0 (fun _ => Except.error TransportError.timeout)).2 =
      Except.error TransportError.timeout := rfl

/-- Claim C2 (amended): whenever the outbound call returns a response, the
upstream numeric status code and raw bytes are copied onto the outgoing
response unconditionally, regardless of the status value (error statuses
included); when the call raises a transport failure instead, nothing is
copied and the fault propagates. -/
theorem get_neo_copy_is_status_blind
    (s e : Datetime) (r : Response)
    (u : OutRequest → Except TransportError HttpResponse)
    (w : HttpResponse) (h : u (neoRequest s e) = Except.ok w) :
    ∃ resp, (get_neo s e r u).2 = Except.ok resp ∧
      resp.status_code = w.status_code ∧ resp.body = w.content := by
  unfold get_neo
  rw [h]
  exact ⟨_, rfl, rfl, rfl⟩

/-- Witness for amended C2 at a concrete upstream 500 response. -/
theorem get_neo_copy_is_status_blind_witness :
    ∃ resp, (get_neo dA dB r0 (fun _ => Except.ok w500)).2 = Except.ok resp ∧
      resp.status_code = w500.status_code ∧ resp.body = w500.content :=
  get_neo_copy_is_status_blind dA dB r0 (fun _ => Except.ok w500) w500 rfl

/-- Claim C3: when the outbound call raises a transport failure, get_neo
does not catch it: the same fault propagates out of the handler and no
success response is produced. -/
theorem get_neo_propagates_transport_fault
    (s e : Datetime) (r : Response)
    (u : OutRequest → Except TransportError HttpResponse)
    (err : TransportError) (h : u (neoRequest s e) = Except.error err) :
    (get_neo s e r u).2 = Except.error err ∧
      (get_neo s e r u).2.isOk = false := by
  unfold get_neo
  rw [h]
  exact ⟨rfl, rfl⟩

/-- Witness for C3 at a concrete connection failure. -/
theorem get_neo_propagates_transport_fault_witness :
    (get_neo dA dB r0 (fun _ => Except.error TransportError.connection)).2 =
        Except.error TransportError.connection ∧
      (get_neo dA dB r0 (fun _ => Except.error TransportError.connection)).2.isOk
        = false :=
  get_neo_propagates_transport_fault dA dB r0
    (fun _ => Except.error TransportError.connection) TransportError.connection rfl

/-- Claim C4: the start_date and end_date values placed in the outbound
query are the calendar-date portions of the inputs, and a datetime with a
nonzero time component yields exactly the same outbound request as the same
datetime at midnight. -/
theorem neo_query_dates_truncated (s e : Datetime) :
    List.lookup "start_date" (neoParams s e) = some (QueryValue.date s.date) ∧
    List.lookup "end_date" (neoParams s e) = some (QueryValue.date e.date) ∧
    neoRequest s e = neoRequest s.atMidnight e.atMidnight := by
  refine ⟨?_, ?_, rfl⟩ <;> simp [neoParams, List.lookup]

/-- Claim C5: every invocation of get_neo issues exactly one outbound
request; it is a GET to the fixed feed URL and its query holds exactly the
keys start_date, end_date and api_key, in that order, with the credential
as api_key. -/
theorem get_neo_single_fixed_request
    (s e : Datetime) (r : Response)
    (u : OutRequest → Except TransportError HttpResponse) :
    (get_neo s e r u).1 = [neoRequest s e] ∧
    (neoRequest s e).method = "GET" ∧
    (neoRequest s e).url = "https://api.nasa.gov/neo/rest/v1/feed" ∧
    (neoRequest s e).params.map Prod.fst = ["start_date", "end_date", "api_key"] ∧
    List.lookup "api_key" (neoRequest s e).params = some (QueryValue.str NASA) := by
  refine ⟨?_, rfl, rfl, rfl, ?_⟩
  · unfold get_neo
    cases h : u (neoRequest s e) <;> simp
  · simp [neoRequest, neoParams, List.lookup]

/-- Claim C6: the credential constant is the rot13 decoding of the literal
embedded in source (so decoding really happened: the decoded value differs
from the literal), and every invocation reads that same decoded string as
the api_key parameter. -/
theorem credential_decoded_once_and_shared (s e : Datetime) :
    NASA = rot13 "9PNJiWSUGzpFtreNtHWzyT8w0ute06KVcUDRKpt6" ∧
    NASA ≠ "9PNJiWSUGzpFtreNtHWzyT8w0ute06KVcUDRKpt6" ∧
    List.lookup "api_key" (neoParams s e) = some (QueryValue.str NASA) := by
  refine ⟨rfl, by decide, ?_⟩
  simp [neoParams, List.lookup]

/-- Claim C7: for every string name, say_hello returns the payload whose
message field is exactly the concatenation of the prefix and the given
name; the handler is total, so no string value is rejected. -/
theorem say_hello_echoes_name (name : String) :
    say_hello name = [("message", "Hello " ++ name)] ∧
    List.lookup "message" (say_hello name) = some ("Hello " ++ name) := by
  refine ⟨rfl, ?_⟩
  simp [say_hello, List.lookup]

/-- Claim C8: the root handler takes no input and always returns the fixed
greeting payload. -/
theorem root_fixed_payload :
    root = [("message", "Hello World")] ∧
    List.lookup "message" root = some "Hello World" := by
  refine ⟨rfl, ?_⟩
  simp [root, List.lookup]

/-- Claim C9: the heartbeat handler takes no input and always returns the
fixed alive payload. -/
theorem heartbeat_fixed_payload :
    heartbeat = [("status", "alive")] ∧
    List.lookup "status" heartbeat = some "alive" := by
  refine ⟨rfl, ?_⟩
  simp [heartbeat, List.lookup]

/-- Claim C10: when the outbound call returns a response, get_neo changes
only the status_code and body fields of the outgoing Response: its headers
and media_type are exactly as they were before the handler ran, even though
the upstream response carries headers of its own. -/
theorem get_neo_touches_only_status_and_body
    (s e : Datetime) (r : Response)
    (u : OutRequest → Except TransportError HttpResponse)
    (w : HttpResponse) (h : u (neoRequest s e) = Except.ok w) :
    ∃ resp, (get_neo s e r u).2 = Except.ok resp ∧
      resp.headers = r.headers ∧ resp.media_type = r.media_type := by
  unfold get_neo
  rw [h]
  exact ⟨_, rfl, rfl, rfl⟩

/-- Witness for C10 at a concrete upstream response carrying headers that
differ from the outgoing ones. -/
theorem get_neo_touches_only_status_and_body_witness :
    ∃ resp, (get_neo dA dB r0 (fun _ => Except.ok wHdr)).2 = Except.ok resp ∧
      resp.headers = r0.headers ∧ resp.media_type = r0.media_type :=
  get_neo_touches_only_status_and_body dA dB r0 (fun _ => Except.ok wHdr) wHdr rfl
